import Mathlib

/-!
Verification of `sandbox/servers/python-basic/server.py`, a minimal HTTP
server: a `/health` endpoint answering JSON and a catch-all answering plain
text.  The Python source is shallowly embedded below: the request handler
`do_GET` becomes a pure function from the configured port and the request
path to the response it writes; module-level port resolution
(`int(os.environ.get('PORT', '3300'))`) becomes `resolvePort`, with Python's
`int()` on decimal strings modelled by `pythonInt`; the `__main__` block
becomes the event trace `mainTrace`.  All response bodies are ASCII, so
bodies are kept as `String` and the byte length of the UTF-8 encoding is
`String.utf8ByteSize`.
-/

namespace PyBasic

/-- ASCII whitespace as stripped by Python's `int()` before conversion. -/
def isWS (c : Char) : Bool :=
  c = ' ' || c = '\t' || c = '\n' || c = '\x0d' || c = '\x0b' || c = '\x0c'

/-- Strip leading and trailing whitespace from a character list. -/
def stripChars (cs : List Char) : List Char :=
  ((cs.dropWhile isWS).reverse.dropWhile isWS).reverse

/-- Value of an ASCII decimal digit, `none` for any other character. -/
def digitVal (c : Char) : Option Nat :=
  if '0' ≤ c && c ≤ '9' then some (c.toNat - '0'.toNat) else none

/-- Continue parsing digits after at least one digit has been read, with
Python's rule that a single underscore may separate two digits. -/
def parseDigitsRest (acc : Nat) : List Char → Option Nat
  | [] => some acc
  | '_' :: c :: cs =>
    match digitVal c with
    | some d => parseDigitsRest (10 * acc + d) cs
    | none => none
  | c :: cs =>
    match digitVal c with
    | some d => parseDigitsRest (10 * acc + d) cs
    | none => none

/-- Parse a nonempty unsigned run of decimal digits (underscore separators
allowed between digits), the whole list must be consumed. -/
def parseUDigits : List Char → Option Nat
  | [] => none
  | c :: cs =>
    match digitVal c with
    | some d => parseDigitsRest d cs
    | none => none

/-- Digits after an optional single `+` or `-` sign. -/
def pythonIntCore : List Char → Option Int
  | '+' :: rest => (parseUDigits rest).map Int.ofNat
  | '-' :: rest => (parseUDigits rest).map fun n => -(Int.ofNat n)
  | rest => (parseUDigits rest).map Int.ofNat

/-- Model of Python's `int(s)` on decimal strings: surrounding ASCII
whitespace is stripped, an optional sign is followed by at least one digit
(single underscores allowed between digits); any other input raises
`ValueError`, modelled as `none`. -/
def pythonInt (s : String) : Option Int :=
  pythonIntCore (stripChars s.data)

/-- JSON values occurring in the health payload. -/
inductive JVal where
  | jbool : Bool → JVal
  | jstr : String → JVal
  | jint : Int → JVal
deriving DecidableEq, Repr

/-- Serialization of one JSON value as `json.dumps` renders it; the strings
used by this server need no escaping. -/
def jrender : JVal → String
  | JVal.jbool true => "true"
  | JVal.jbool false => "false"
  | JVal.jstr s => "\"" ++ s ++ "\""
  | JVal.jint n => toString n

/-- Join rendered members with `json.dumps`'s default item separator. -/
def joinComma : List String → String
  | [] => ""
  | [x] => x
  | x :: y :: xs => x ++ ", " ++ joinComma (y :: xs)

/-- `json.dumps` on a flat JSON object given as an ordered field list, with
the default separators `", "` and `": "`; Python dicts preserve insertion
order, so the field list order is the serialization order. -/
def json_dumps (obj : List (String × JVal)) : String :=
  "\x7b" ++ joinComma (obj.map fun kv => "\"" ++ kv.1 ++ "\": " ++ jrender kv.2) ++ "\x7d"

/-- An HTTP response as the handler writes it: `send_response(status)`, the
`send_header` calls in order, and the body written to `wfile`.  The body is
ASCII, kept as a `String` whose UTF-8 encoding is the byte payload. -/
structure Response where
  status : Nat
  headers : List (String × String)
  body : String
deriving DecidableEq, Repr

/-- `Handler.do_GET` from `server.py`: branch on `self.path == '/health'`;
the health branch answers the `json.dumps` of
`{"ok": True, "service": "python-basic", "port": PORT}` as
`application/json`, every other path answers
`f'python-basic running on {PORT}\n'` as `text/plain`; both branches send
status 200 and `Content-Length: str(len(body))` over the UTF-8 bytes. -/
def do_GET (PORT : Int) (path : String) : Response :=
  if path = "/health" then
    let body := json_dumps
      [("ok", JVal.jbool true), ("service", JVal.jstr "python-basic"),
       ("port", JVal.jint PORT)]
    { status := 200,
      headers := [("Content-Type", "application/json"),
                  ("Content-Length", toString body.utf8ByteSize)],
      body := body }
  else
    let body := "python-basic running on " ++ toString PORT ++ "\n"
    { status := 200,
      headers := [("Content-Type", "text/plain"),
                  ("Content-Length", toString body.utf8ByteSize)],
      body := body }

/-- `BaseHTTPRequestHandler` stores the raw request target as `self.path`
without splitting off a query string; the handler compares that raw value. -/
def requestSelfPath (target : String) : String := target

/-- Serving a sequence of GET requests: the server handles connections
serially and `do_GET` reads nothing but the request path and the
module-level `PORT`, so a run is the pointwise image of the request list. -/
def serveRequests (PORT : Int) (paths : List String) : List Response :=
  paths.map (do_GET PORT)

/-- `PORT = int(os.environ.get('PORT', '3300'))`: the environment value, or
the literal `'3300'` when the variable is absent, passed through `int()`;
`none` means the conversion raised and the module never finished loading. -/
def resolvePort (env : Option String) : Option Int :=
  pythonInt (env.getD "3300")

/-- Observable startup actions of the `__main__` block, in program order. -/
inductive Event where
  | bind : Int → Event
  | log : String → Event
  | serve : Int → Event
deriving DecidableEq, Repr

/-- The startup line printed by `__main__`. -/
def startupLine (p : Int) : String :=
  "[python-basic] listening on http://localhost:" ++ toString p

/-- The `__main__` block: if module load succeeded with port `p`, construct
`HTTPServer(('0.0.0.0', p), Handler)` (bind), print the startup line, then
`serve_forever` with the handler closed over `p`; if `int()` raised, none of
this happens. -/
def mainTrace (env : Option String) : Option (List Event) :=
  (resolvePort env).map fun p =>
    [Event.bind p, Event.log (startupLine p), Event.serve p]

/-- The log lines of a trace, in order. -/
def logLines (t : List Event) : List String :=
  t.filterMap fun e =>
    match e with
    | Event.log s => some s
    | _ => none

/-- The prefix of a trace before serving starts. -/
def preServe (t : List Event) : List Event :=
  t.takeWhile fun e =>
    match e with
    | Event.serve _ => false
    | _ => true

/-- The health payload serialized: the three fields appear in insertion
order `ok`, `service`, `port` with `json.dumps`'s default separators. -/
theorem json_dumps_health (p : Int) :
    json_dumps [("ok", JVal.jbool true), ("service", JVal.jstr "python-basic"),
      ("port", JVal.jint p)]
    = "\x7b\"ok\": true, \"service\": \"python-basic\", \"port\": "
      ++ toString p ++ "\x7d" := by
  simp only [json_dumps, joinComma, jrender, List.map, String.append_assoc]
  rw [← String.append_assoc, ← String.append_assoc, ← String.append_assoc]
  rfl

/-- Claim C1: for every configured port `P`, a GET request whose path is
exactly `/health` is answered with status 200, header
`Content-Type: application/json`, and a JSON object body with exactly the
three fields `ok = true`, `service = "python-basic"`, `port = P`. -/
theorem health_endpoint_response (P : Int) :
    (do_GET P "/health").status = 200 ∧
    (do_GET P "/health").headers.lookup "Content-Type" = some "application/json" ∧
    (do_GET P "/health").body
      = json_dumps [("ok", JVal.jbool true), ("service", JVal.jstr "python-basic"),
          ("port", JVal.jint P)] :=
  ⟨rfl, rfl, rfl⟩

/-- Claim C2: for every configured port `P` and every GET request whose
path `q` is not `/health` (including `/`), the response has status 200,
header `Content-Type: text/plain`, and the body is exactly
`"python-basic running on "`, the decimal digits of `P`, and a newline. -/
theorem catchall_response (P : Nat) (q : String) (h : q ≠ "/health") :
    do_GET (P : Int) q =
      { status := 200,
        headers := [("Content-Type", "text/plain"),
          ("Content-Length",
            toString ("python-basic running on " ++ toString P ++ "\n").utf8ByteSize)],
        body := "python-basic running on " ++ toString P ++ "\n" } := by
  simp only [do_GET, if_neg h]
  rfl

/-- Witness for C2 at port 4000 and path `/`. -/
theorem catchall_response_witness :
    ("/" : String) ≠ "/health" ∧
    do_GET ((4000 : Nat) : Int) "/" =
      { status := 200,
        headers := [("Content-Type", "text/plain"),
          ("Content-Length",
            toString ("python-basic running on " ++ toString (4000 : Nat) ++ "\n").utf8ByteSize)],
        body := "python-basic running on " ++ toString (4000 : Nat) ++ "\n" } :=
  ⟨by decide, catchall_response 4000 "/" (by decide)⟩

/-- Claim C3: on both branches and for every port, the `Content-Length`
header value is the rendering of the exact number of bytes of the UTF-8
encoded response body. -/
theorem content_length_exact (P : Int) (q : String) :
    (do_GET P q).headers.lookup "Content-Length"
      = some (toString ((do_GET P q).body.utf8ByteSize)) := by
  unfold do_GET
  split <;> rfl

/-- Claim C4: the configured port is resolved once from the `PORT`
environment value: absent means 3300, a valid integer string means that
integer; the resolved value is the one bound, served with, and rendered
inside every response body. -/
theorem port_resolution :
    resolvePort none = some 3300 ∧
    (∀ s n, pythonInt s = some n → resolvePort (some s) = some n) ∧
    (∀ env p, resolvePort env = some p →
      mainTrace env = some [Event.bind p, Event.log (startupLine p), Event.serve p]) ∧
    (∀ p q, ∃ pre post, (do_GET p q).body = pre ++ toString p ++ post) := by
  refine ⟨by decide, fun s n h => h, fun env p h => by simp [mainTrace, h], fun p q => ?_⟩
  by_cases hq : q = "/health"
  · refine ⟨"\x7b\"ok\": true, \"service\": \"python-basic\", \"port\": ", "\x7d", ?_⟩
    simp only [do_GET, if_pos hq, json_dumps_health]
  · exact ⟨"python-basic running on ", "\n", by simp only [do_GET, if_neg hq]⟩

/-- Witness for C4: the default and the example value `"8080"`. -/
theorem port_resolution_witness :
    (pythonInt "8080" = some 8080 ∧ resolvePort (some "8080") = some 8080) ∧
    mainTrace none
      = some [Event.bind 3300, Event.log (startupLine 3300), Event.serve 3300] :=
  ⟨⟨by decide, port_resolution.2.1 "8080" 8080 (by decide)⟩,
    port_resolution.2.2.1 none 3300 (by decide)⟩

/-- Claim C5: every GET request, whatever its path, is answered with
status 200; the handler has no branch producing any other status. -/
theorem status_always_200 (P : Int) (q : String) : (do_GET P q).status = 200 := by
  unfold do_GET
  split <;> rfl

/-- Claim C6: the serialized `/health` JSON body lists its three fields in
the order `ok`, `service`, `port`. -/
theorem health_body_field_order (P : Int) :
    (do_GET P "/health").body
      = "\x7b\"ok\": true, \"service\": \"python-basic\", \"port\": "
        ++ toString P ++ "\x7d" :=
  json_dumps_health P

/-- Claim C7: request handling is deterministic and stateless: with the
port fixed, any two requests with the same path, at any positions of any
two runs, get identical responses. -/
theorem stateless_requests (P : Int) (qs1 qs2 : List String) (i j : Nat)
    (h : qs1[i]? = qs2[j]?) :
    (serveRequests P qs1)[i]? = (serveRequests P qs2)[j]? := by
  simp only [serveRequests, List.getElem?_map, h]

/-- Witness for C7: `/health` served first in one run and second in
another, with a different request in between. -/
theorem stateless_requests_witness :
    (["/a", "/health"] : List String)[1]? = (["/health"] : List String)[0]? ∧
    (serveRequests 3300 ["/a", "/health"])[1]? = (serveRequests 3300 ["/health"])[0]? :=
  ⟨by decide, stateless_requests 3300 ["/a", "/health"] ["/health"] 1 0 (by decide)⟩

/-- Claim C8: when startup succeeds with port `p`, the trace carries
exactly one log line, it announces `http://localhost:<p>`, and it is
emitted before serving begins. -/
theorem startup_log_line (env : Option String) (p : Int)
    (h : resolvePort env = some p) :
    ∃ t, mainTrace env = some t ∧
      logLines t = ["[python-basic] listening on http://localhost:" ++ toString p] ∧
      logLines (preServe t) = logLines t := by
  refine ⟨[Event.bind p, Event.log (startupLine p), Event.serve p], ?_, ?_, ?_⟩
  · simp [mainTrace, h]
  · simp [logLines, startupLine]
  · simp [logLines, preServe]

/-- Witness for C8 with the variable unset. -/
theorem startup_log_line_witness :
    resolvePort none = some 3300 ∧
    ∃ t, mainTrace none = some t ∧
      logLines t
        = ["[python-basic] listening on http://localhost:" ++ toString (3300 : Int)] ∧
      logLines (preServe t) = logLines t :=
  ⟨by decide, startup_log_line none 3300 (by decide)⟩

/-- Claim C9: a health-path request with a query string, such as
`/health?probe=1`, is compared with the query string included, does not
equal `/health`, and therefore receives the plain-text catch-all
response. -/
theorem health_query_not_health (P : Int) :
    requestSelfPath "/health?probe=1" ≠ "/health" ∧
    do_GET P (requestSelfPath "/health?probe=1") =
      { status := 200,
        headers := [("Content-Type", "text/plain"),
          ("Content-Length",
            toString ("python-basic running on " ++ toString P ++ "\n").utf8ByteSize)],
        body := "python-basic running on " ++ toString P ++ "\n" } := by
  exact ⟨by decide, by simp only [requestSelfPath, do_GET, if_neg (by decide : ¬("/health?probe=1" = "/health"))]⟩

/-- Witness for C9 at port 3300. -/
theorem health_query_not_health_witness :
    requestSelfPath "/health?probe=1" ≠ "/health" ∧
    do_GET 3300 (requestSelfPath "/health?probe=1") =
      { status := 200,
        headers := [("Content-Type", "text/plain"),
          ("Content-Length",
            toString ("python-basic running on " ++ toString (3300 : Int) ++ "\n").utf8ByteSize)],
        body := "python-basic running on " ++ toString (3300 : Int) ++ "\n" } :=
  health_query_not_health 3300

/-- Claim C10: when `PORT` is set to a string `int()` rejects, such as the
empty string or `"abc"`, the conversion at module load raises, so the
startup trace is empty: no socket is bound and no log line is printed. -/
theorem invalid_port_aborts :
    pythonInt "" = none ∧ pythonInt "abc" = none ∧
    (∀ s, pythonInt s = none → mainTrace (some s) = none) := by
  refine ⟨by decide, by decide, fun s h => ?_⟩
  simp [mainTrace, resolvePort, h]

/-- Witness for C10 at `PORT=abc`. -/
theorem invalid_port_aborts_witness :
    pythonInt "abc" = none ∧ mainTrace (some "abc") = none :=
  ⟨by decide, invalid_port_aborts.2.2 "abc" (by decide)⟩

end PyBasic
